import Mathlib

/-!
Verification of the open-ephys-audio playback pipeline (oeaudio/core.py and
oeaudio/script.py), as a shallow embedding in Lean 4.

Python's global random module is modelled abstractly: a PRNG state type G,
a seeding function (random.seed) and a shuffling function (random.shuffle)
that consumes and returns the state.  Sample values are rationals (only the
values 0 and 1 matter to the claims).  Stimulus files are lists of frames,
each frame a list of per-channel samples.  Raw byte buffers are lists of
naturals.  Fallible operations return Except, mirroring Python exceptions.
-/

namespace Oeaudio

/-- Abstract model of the Python random module: a PRNG state type G with
random.seed (reset the state from a seed) and random.shuffle (permute a
list, consuming PRNG state). -/
structure PyRandom (G : Type) (α : Type) where
  seed : Nat → G
  shuffle : G → List α → List α × G

/-- Python int() on a rational: truncation toward zero. -/
def pyInt (q : ℚ) : Int :=
  if 0 ≤ q then ⌊q⌋ else ⌈q⌉

/-- core.py repeat_and_shuffle: seq = [s for f in seq for s in (f,) * repeats];
if shuffle (a truthy seed): random.seed(shuffle); random.shuffle(seq).
repeats is a Python int; a non-positive value yields empty tuples, modelled
by Int.toNat. -/
def repeat_and_shuffle {G α : Type} (Rnd : PyRandom G α) (seq : List α)
    (repeats : Int) (shuffle : Option Nat) (g : G) : List α × G :=
  let seq2 := seq.flatMap (fun f => List.replicate repeats.toNat f)
  match shuffle with
  | some s => Rnd.shuffle (Rnd.seed s) seq2
  | none => (seq2, g)

/-- One sound file: frames (each a list of per-channel samples), declared
channel count, sample rate, and the current read position in frames. -/
structure SoundFile where
  frames : List (List ℚ)
  channels : Nat
  samplerate : Nat
  pos : Nat
  deriving DecidableEq, Repr

/-- core.py Stimulus: a SoundFile plus an optional click duration. -/
structure Stimulus where
  fp : SoundFile
  click : Option ℚ
  deriving DecidableEq, Repr

/-- Stimulus.samplerate property. -/
def Stimulus.samplerate (s : Stimulus) : Nat := s.fp.samplerate

/-- Stimulus.channels property: a mono file with a click reports 2 channels. -/
def Stimulus.channels (s : Stimulus) : Nat :=
  if s.fp.channels = 1 ∧ s.click ≠ none then 2 else s.fp.channels

/-- Stimulus.seek: self.fp.seek(pos). -/
def Stimulus.seek (s : Stimulus) (p : Nat) : Stimulus :=
  { s with fp := { s.fp with pos := p } }

/-- core.py Stimulus.read(block_size).  If click is None or the file has more
than one channel, the file's frames pass through unchanged (buffer_read).
Otherwise (mono + click): read data, build a zero sync channel of the same
length, and if the read started at position 0 set the first
int(click * samplerate / 1000.) entries of sync to 1.0; return the column
stack np.c_[data, sync].  Both branches advance the file position. -/
def Stimulus.read (s : Stimulus) (blockSize : Nat) : List (List ℚ) × Stimulus :=
  let fp := s.fp
  let data := (fp.frames.drop fp.pos).take blockSize
  let fp2 := { fp with pos := fp.pos + data.length }
  match s.click with
  | none => (data, { s with fp := fp2 })
  | some c =>
    if 1 < fp.channels then (data, { s with fp := fp2 })
    else
      let clickFrames : Nat :=
        if fp.pos = 0 then (pyInt (c * (fp.samplerate : ℚ) / 1000)).toNat else 0
      let sync := (List.range data.length).map
        (fun i => if i < clickFrames then (1 : ℚ) else 0)
      (data.zipWith (fun fr y => fr ++ [y]) sync, { s with fp := fp2 })

/-- Iteration state of core.py StimulusQueue after __iter__: the flat
presentation list (stimulus identifiers), the current index, the loop flag,
the shuffle setting, and the read position of every stimulus in the store
(stimuli are shared objects, so positions live outside the list). -/
structure SQIter (G : Type) (α : Type) where
  stimlist : List α
  index : Nat
  loop : Bool
  shuffle : Option Nat
  pos : α → Nat

/-- The tail of StimulusQueue.__next__: s = self.stimlist[self.index];
s.seek(0); self.index += 1; return s.  None models the IndexError raised
when the list is empty. -/
def SQIter.emit {G α : Type} [DecidableEq α] (q : SQIter G α) (g : G) :
    Option (α × SQIter G α × G) :=
  match q.stimlist.get? q.index with
  | none => none
  | some s =>
    some (s, { q with index := q.index + 1, pos := Function.update q.pos s 0 }, g)

/-- core.py StimulusQueue.__next__: if the index has run past the list, raise
StopIteration unless looping; when looping, call random.shuffle on the list
(unconditionally) and reset the index to 0; then emit the current element,
rewound. -/
def SQIter.next {G α : Type} [DecidableEq α] (Rnd : PyRandom G α)
    (q : SQIter G α) (g : G) : Option (α × SQIter G α × G) :=
  if q.stimlist.length ≤ q.index then
    if q.loop = false then none
    else
      let p := Rnd.shuffle g q.stimlist
      SQIter.emit { q with stimlist := p.1, index := 0 } p.2
  else SQIter.emit q g

/-- Static description of one stimulus file as opened at queue-build time:
the file's own channel count and sample rate. -/
structure StimMeta where
  fileChannels : Nat
  samplerate : Nat
  deriving DecidableEq, Repr

/-- The channels property of a Stimulus built on this file with this click
setting (mono + click reports 2). -/
def stimChannels (m : StimMeta) (click : Option ℚ) : Nat :=
  if m.fileChannels = 1 ∧ click ≠ none then 2 else m.fileChannels

/-- The state a successfully constructed core.py StimulusQueue holds. -/
structure StimulusQueue where
  repeats : Int
  shuffle : Option Nat
  loop : Bool
  click : Option ℚ
  samplerate : Nat
  channels : Nat
  stimuli : List StimMeta
  deriving Repr

/-- core.py StimulusQueue.__init__: assert the file list is non-empty and
repeats is positive; take the first file's sample rate and (click-adjusted)
channel count; raise RuntimeError when any file differs in sample rate, then
when any differs in channel count; otherwise store everything. -/
def StimulusQueue.mk_ (files : List StimMeta) (repeats : Int)
    (shuffle : Option Nat) (loop : Bool) (click : Option ℚ) :
    Except String StimulusQueue :=
  match files with
  | [] => .error "No stimuli!"
  | f0 :: rest =>
    if repeats ≤ 0 then .error "Number of repeats must be a positive integer"
    else if ((f0 :: rest).all fun f => f.samplerate = f0.samplerate) = false then
      .error "sampling rate is not the same in all files"
    else if ((f0 :: rest).all fun f =>
        stimChannels f click = stimChannels f0 click) = false then
      .error "channel count is not the same in all files"
    else
      .ok { repeats := repeats, shuffle := shuffle, loop := loop,
            click := click, samplerate := f0.samplerate,
            channels := stimChannels f0 click, stimuli := f0 :: rest }

/-- An element of the sample queue in script.py: a buffer of audio data, a
control-message string, or None (the termination sentinel). -/
inductive QItem (β : Type) where
  | audio (data : β)
  | msg (text : String)
  | sentinel
  deriving DecidableEq, Repr

/-- queue.Queue(maxsize): a bounded FIFO. -/
structure PQueue (β : Type) where
  maxsize : Nat
  items : List (QItem β)
  deriving Repr

/-- queue.Queue.put_nowait: raises queue.Full when maxsize is positive and
the queue already holds maxsize items; otherwise appends. -/
def PQueue.put_nowait {β : Type} (q : PQueue β) (it : QItem β) :
    Except String (PQueue β) :=
  if 0 < q.maxsize ∧ q.maxsize ≤ q.items.length then .error "queue.Full"
  else .ok { q with items := q.items ++ [it] }

/-- Byte length of a buffer returned by Stimulus.read: four bytes per
float32 sample, summed over the frames. -/
def readBytesLen (out : List (List ℚ)) : Nat :=
  4 * (out.map List.length).sum

/-- The pre-fill loop of script.py main: for _ in range(args.buffer_size):
samples = stim.read(args.block_size); sample_queue.put_nowait(samples);
if len(samples) < buffer_size: break.  bufferBytes is the local variable
buffer_size = block_size * channels * sizeof(float). -/
def prefillLoop (blockSize bufferBytes : Nat) :
    Nat → Stimulus → PQueue (List (List ℚ)) →
    Except String (PQueue (List (List ℚ)) × Stimulus)
  | 0, stim, q => .ok (q, stim)
  | fuel + 1, stim, q =>
    let r := stim.read blockSize
    match q.put_nowait (.audio r.1) with
    | .error e => .error e
    | .ok q2 =>
      if readBytesLen r.1 < bufferBytes then .ok (q2, r.2)
      else prefillLoop blockSize bufferBytes fuel r.2 q2

/-- The whole pre-fill phase of script.py main: create an empty queue of
maxsize buffer_size + 1, put_nowait the start message for the first
stimulus, then run the pre-fill loop. -/
def prefillQueue (bufferSize blockSize bufferBytes : Nat) (stim : Stimulus)
    (name : String) : Except String (PQueue (List (List ℚ)) × Stimulus) :=
  let q0 : PQueue (List (List ℚ)) := { maxsize := bufferSize + 1, items := [] }
  match q0.put_nowait (.msg ("start " ++ name)) with
  | .error e => .error e
  | .ok q1 => prefillLoop blockSize bufferBytes bufferSize stim q1

/-- Python slice assignment buf[start:stop] = src on a cffi raw buffer
(the outdata of a sounddevice RawOutputStream): the source must have
exactly the length of the slice, otherwise a ValueError is raised. -/
def bufAssignSlice (buf : List Nat) (start stop : Nat) (src : List Nat) :
    Except String (List Nat) :=
  if src.length = stop - start then
    .ok (buf.take start ++ src ++ buf.drop stop)
  else .error "ValueError: buffer slice assignment needs matching length"

/-- Outcome of one invocation of the _process callback in script.py. -/
inductive CbResult where
  | ok (outdata : List Nat) (sent : List String)
  | callbackStop (outdata : List Nat)
  | callbackAbort
  | assertFail (reason : String)
  | exn (outdata : List Nat) (e : String)
  deriving DecidableEq, Repr

/-- script.py _process(outdata, frames, time, status): assert
frames == block_size; on output underflow raise CallbackAbort; assert not
status; pop the queue without blocking.  None raises CallbackStop; a string
is forwarded to controller.message and nothing is written to outdata; a
data buffer is asserted to fit, copied, and the tail is zero-padded with a
length-matched byte string; on queue.Empty the code assigns a single zero
byte to the whole slice of outdata.
outdata is a raw byte buffer of length frames * channels * 4 whose prior
contents are whatever the driver left there. -/
def process (blockSize : Nat) (outdata : List Nat) (frames : Nat)
    (underflow otherStatus : Bool) (front : Option (QItem (List Nat))) :
    CbResult :=
  if frames ≠ blockSize then
    .assertFail "frame count does not match buffer block size"
  else if underflow then .callbackAbort
  else if otherStatus then .assertFail "status"
  else
    match front with
    | none =>
      match bufAssignSlice outdata 0 outdata.length [0] with
      | .ok out => .ok out []
      | .error e => .exn outdata e
    | some .sentinel => .callbackStop outdata
    | some (.msg t) => .ok outdata [t]
    | some (.audio dat) =>
      if outdata.length < dat.length then .assertFail "block has too much data"
      else
        match bufAssignSlice outdata 0 dat.length dat with
        | .error e => .exn outdata e
        | .ok out1 =>
          match bufAssignSlice out1 dat.length outdata.length
              (List.replicate (outdata.length - dat.length) 0) with
          | .error e => .exn out1 e
          | .ok out2 => .ok out2 []

/-- Observable actions of script.py main after the playback loop ends. -/
inductive MainEv where
  | putSentinel
  | evtWait
  | streamClose
  | message (text : String)
  | logEvent (text : String)
  | stopRecording
  | sleepGap
  | stopAcquisition
  deriving DecidableEq, Repr

/-- How the try-block around the playback loop terminated. -/
inductive ExitPath where
  | graceful
  | interrupted
  | overrun
  | exception
  deriving DecidableEq, Repr

/-- The finally clause of script.py main: controller.stop_recording();
time.sleep(args.gap); controller.stop_acquisition(). -/
def controllerCleanup : List MainEv :=
  [.stopRecording, .sleepGap, .stopAcquisition]

/-- The trace of actions script.py main performs after the playback loop
ends, per exit path.  On graceful completion the with-block suite runs
sample_queue.put(None) and evt.wait() before the stream context closes; on
an exception the context closes first, then the matching except clause runs
(its log and controller.message calls); the finally clause runs in every
case. -/
def mainExitTrace : ExitPath → List MainEv
  | .graceful => [.putSentinel, .evtWait, .streamClose] ++ controllerCleanup
  | .interrupted =>
    [.streamClose, .logEvent "experiment interrupted by user",
     .message "experiment interrupted by user"] ++ controllerCleanup
  | .overrun =>
    [.streamClose, .logEvent "buffer overrun",
     .message "buffer overrun error during stimulus playback"] ++ controllerCleanup
  | .exception =>
    [.streamClose, .message "unhandled exception during stimulus playback",
     .logEvent "unhandled exception"] ++ controllerCleanup

/-- A concrete model of the random module used in concrete runs: shuffling
reverses the list (reversal is one of the permutations random.shuffle can
produce) and the PRNG state is trivial. -/
def revRandom : PyRandom Unit Nat :=
  { seed := fun _ => (), shuffle := fun g l => (l.reverse, g) }

/-- A concrete exhausted iteration state: two stimuli, shuffle disabled,
loop enabled, index past the end of the list. -/
def c1Queue : SQIter Unit Nat :=
  { stimlist := [0, 1], index := 2, loop := true, shuffle := none,
    pos := fun _ => 7 }

/-- A concrete mono stimulus: three frames of value 1 at 8000 Hz with
click duration 0.1 (the command line passes the click option in seconds). -/
def clickStim : Stimulus :=
  { fp := { frames := [[1], [1], [1]], channels := 1,
            samplerate := 8000, pos := 0 },
    click := some ((1 : ℚ)/10) }

/-- A concrete output buffer holding stale nonzero bytes left by the driver
(8 bytes: 2 frames of one float32 channel). -/
def staleBuf : List Nat := List.replicate 8 7

/-! Helper lemmas. -/

theorem flatMap_replicate_length {α : Type} (seq : List α) (n : Nat) :
    (seq.flatMap fun f => List.replicate n f).length = seq.length * n := by
  induction seq with
  | nil => simp
  | cons b tl ih => simp [ih, Nat.succ_mul, Nat.add_comm]

theorem flatMap_replicate_segment {α : Type} (seq : List α) (n : Nat) :
    ∀ (i : Nat) (a : α), seq.get? i = some a →
      (((seq.flatMap fun f => List.replicate n f).drop (i * n)).take n) =
        List.replicate n a := by
  induction seq with
  | nil => intro i a h; simp at h
  | cons b tl ih =>
    intro i a h
    cases i with
    | zero =>
      simp only [List.get?] at h
      injection h with h; subst h
      rw [List.flatMap_cons, Nat.zero_mul, List.drop_zero,
          List.take_left' (List.length_replicate n b)]
    | succ j =>
      simp only [List.get?] at h
      rw [List.flatMap_cons,
          show (j + 1) * n = (List.replicate n b).length + j * n by
            simp [Nat.succ_mul, Nat.add_comm],
          List.drop_append]
      exact ih j a h

theorem all_decide_true {α : Type} (l : List α) (p : α → Prop)
    [DecidablePred p] (h : ∀ x ∈ l, p x) :
    (l.all fun x => decide (p x)) = true :=
  List.all_eq_true.mpr fun x hx => decide_eq_true (h x hx)

theorem all_decide_false {α : Type} (l : List α) (p : α → Prop)
    [DecidablePred p] (h : ¬ ∀ x ∈ l, p x) :
    (l.all fun x => decide (p x)) = false := by
  apply Bool.eq_false_iff.mpr
  intro hall
  exact h fun x hx => of_decide_eq_true (List.all_eq_true.mp hall x hx)

theorem SQIter.emit_pos {G α : Type} [DecidableEq α] (q : SQIter G α) (g : G)
    (s : α) (q2 : SQIter G α) (g2 : G)
    (h : SQIter.emit q g = some (s, q2, g2)) : q2.pos s = 0 := by
  unfold SQIter.emit at h
  cases hg : q.stimlist.get? q.index with
  | none => rw [hg] at h; exact absurd h (by simp)
  | some a =>
    rw [hg] at h
    simp only [Option.some.injEq, Prod.mk.injEq] at h
    obtain ⟨rfl, h2, -⟩ := h
    rw [← h2]
    simp [Function.update]

/-! Theorems for the claims. -/

/-- C6: for every non-empty list of N sources and repeat count R ≥ 1 with
shuffle disabled, the presentation list built by repeat_and_shuffle has
length N times R, equals the per-source contiguous repetition of the input
order, and its i-th segment of length R is R copies of the i-th source. -/
theorem c6_repeat_order {G α : Type} (Rnd : PyRandom G α) (seq : List α)
    (R : Int) (g : G) (_hne : seq ≠ []) (_hR : 1 ≤ R) :
    (repeat_and_shuffle Rnd seq R none g).1 =
      (seq.flatMap fun f => List.replicate R.toNat f) ∧
    (repeat_and_shuffle Rnd seq R none g).1.length = seq.length * R.toNat ∧
    ∀ (i : Nat) (a : α), seq.get? i = some a →
      ((((repeat_and_shuffle Rnd seq R none g).1).drop (i * R.toNat)).take
        R.toNat) = List.replicate R.toNat a := by
  refine ⟨rfl, flatMap_replicate_length seq R.toNat, ?_⟩
  intro i a h
  exact flatMap_replicate_segment seq R.toNat i a h

/-- Witness for C6 at sources [10, 20] with repeats 2: the flat list is
[10, 10, 20, 20]. -/
theorem c6_repeat_order_witness :
    ([10, 20] : List Nat) ≠ [] ∧ (1 : Int) ≤ 2 ∧
    (repeat_and_shuffle revRandom [10, 20] 2 none ()).1 = [10, 10, 20, 20] := by
  refine ⟨by decide, by decide, ?_⟩
  rw [(c6_repeat_order revRandom [10, 20] 2 () (by decide) (by decide)).1]
  decide

/-- C7: shuffling is deterministic under a fixed seed.  Because
repeat_and_shuffle reseeds the PRNG from the given seed before shuffling,
two runs with the same seed and input produce identical presentation
orders whatever PRNG states the runs start from. -/
theorem c7_seed_deterministic {G α : Type} (Rnd : PyRandom G α)
    (seq : List α) (R : Int) (s : Nat) (g1 g2 : G) :
    (repeat_and_shuffle Rnd seq R (some s) g1).1 =
      (repeat_and_shuffle Rnd seq R (some s) g2).1 := rfl

/-- C8: every stimulus returned by StimulusQueue.next has been rewound to
read position 0 before being handed to the caller, on both the in-list and
the loop-wrap path. -/
theorem c8_dequeued_rewound {G α : Type} [DecidableEq α]
    (Rnd : PyRandom G α) (q : SQIter G α) (g : G) (s : α)
    (q2 : SQIter G α) (g2 : G)
    (h : SQIter.next Rnd q g = some (s, q2, g2)) : q2.pos s = 0 := by
  unfold SQIter.next at h
  by_cases hc : q.stimlist.length ≤ q.index
  · rw [if_pos hc] at h
    by_cases hl : q.loop = false
    · rw [if_pos hl] at h; exact absurd h (by simp)
    · rw [if_neg hl] at h
      exact SQIter.emit_pos _ _ _ _ _ h
  · rw [if_neg hc] at h
    exact SQIter.emit_pos _ _ _ _ _ h

/-- Witness for C8: dequeuing from the concrete exhausted looping queue
(whose position store reports 7 everywhere) yields a stimulus whose stored
position is 0. -/
theorem c8_dequeued_rewound_witness :
    ∃ r : Nat × SQIter Unit Nat × Unit,
      SQIter.next revRandom c1Queue () = some r ∧ r.2.1.pos r.1 = 0 := by
  refine ⟨_, rfl, ?_⟩
  exact c8_dequeued_rewound revRandom c1Queue () _ _ _ rfl

/-- C1 counterexample: with loop enabled, shuffle disabled and the list
exhausted, StimulusQueue.next still reshuffles — with a PRNG whose shuffle
reverses, the stored list becomes [1, 0] and the element returned is 1, not
the claimed unchanged list [0, 1] with first element 0. -/
theorem c1_loop_no_reshuffle_cex :
    c1Queue.shuffle = none ∧ c1Queue.loop = true ∧
    c1Queue.stimlist = [0, 1] ∧ c1Queue.stimlist.length ≤ c1Queue.index ∧
    (SQIter.next revRandom c1Queue ()).map (fun r => (r.1, r.2.1.stimlist)) =
      some (1, [1, 0]) ∧
    (SQIter.next revRandom c1Queue ()).map (fun r => (r.1, r.2.1.stimlist)) ≠
      some (0, [0, 1]) := by
  refine ⟨rfl, rfl, rfl, by decide, rfl, by decide⟩

/-- C1 amended: when next() is called after the presentation list is
exhausted and loop is enabled, the list is always reshuffled (random.shuffle
is applied regardless of the shuffle setting), the position is reset, and
the first element of the reshuffled list is returned instead of signaling
end-of-sequence. -/
theorem c1_loop_always_reshuffles {G α : Type} [DecidableEq α]
    (Rnd : PyRandom G α) (q : SQIter G α) (g : G)
    (hloop : q.loop = true) (hex : q.stimlist.length ≤ q.index)
    (s : α) (hhead : (Rnd.shuffle g q.stimlist).1.get? 0 = some s) :
    SQIter.next Rnd q g =
      some (s, { q with
                 stimlist := (Rnd.shuffle g q.stimlist).1,
                 index := 1,
                 pos := Function.update q.pos s 0 },
            (Rnd.shuffle g q.stimlist).2) := by
  rw [SQIter.next, if_pos hex, if_neg (by rw [hloop]; decide)]
  unfold SQIter.emit
  simp only [hhead]

/-- Witness for the amended C1 at the concrete queue: next returns stimulus
1 with the reversed list installed and index 1. -/
theorem c1_loop_always_reshuffles_witness :
    SQIter.next revRandom c1Queue () =
      some (1, { c1Queue with
                 stimlist := [1, 0],
                 index := 1,
                 pos := Function.update c1Queue.pos 1 0 }, ()) :=
  c1_loop_always_reshuffles revRandom c1Queue () rfl (by decide) 1 rfl

/-- C5 counterexample: on the user-interrupt exit path, main neither pushes
the terminating sentinel nor waits on the stream-finished event, so the
exit paths do not differ only in message text. -/
theorem c5_interrupt_skips_sentinel_cex :
    MainEv.putSentinel ∉ mainExitTrace .interrupted ∧
    MainEv.evtWait ∉ mainExitTrace .interrupted ∧
    MainEv.putSentinel ∈ mainExitTrace .graceful := by decide

/-- C5 amended: on every exit path from the playback loop the stream
context is closed and the controller shutdown sequence (stop_recording,
gap delay, stop_acquisition) runs as the final steps; the sentinel push and
the wait for stream completion, however, happen only on the graceful path —
the interrupt, overrun and exception paths skip both. -/
theorem c5_cleanup_on_all_paths (p : ExitPath) :
    (∃ t, mainExitTrace p = t ++ controllerCleanup) ∧
    (MainEv.putSentinel ∈ mainExitTrace p ↔ p = .graceful) ∧
    (MainEv.evtWait ∈ mainExitTrace p ↔ p = .graceful) ∧
    MainEv.streamClose ∈ mainExitTrace p := by
  cases p <;> exact ⟨⟨_, rfl⟩, by decide, by decide, by decide⟩

/-- C9: StimulusQueue construction fails with the matching error on an
empty file list, a non-positive repeat count, a sample-rate mismatch, or a
(click-adjusted) channel-count mismatch, and succeeds on valid input,
storing the shared rate and channel count. -/
theorem c9_construction_validates (files : List StimMeta) (repeats : Int)
    (shuffle : Option Nat) (loop : Bool) (click : Option ℚ) :
    (files = [] →
      StimulusQueue.mk_ files repeats shuffle loop click =
        .error "No stimuli!") ∧
    (files ≠ [] → repeats ≤ 0 →
      StimulusQueue.mk_ files repeats shuffle loop click =
        .error "Number of repeats must be a positive integer") ∧
    (∀ f0 rest, files = f0 :: rest → 0 < repeats →
      ¬ (∀ f ∈ files, f.samplerate = f0.samplerate) →
      StimulusQueue.mk_ files repeats shuffle loop click =
        .error "sampling rate is not the same in all files") ∧
    (∀ f0 rest, files = f0 :: rest → 0 < repeats →
      (∀ f ∈ files, f.samplerate = f0.samplerate) →
      ¬ (∀ f ∈ files, stimChannels f click = stimChannels f0 click) →
      StimulusQueue.mk_ files repeats shuffle loop click =
        .error "channel count is not the same in all files") ∧
    (∀ f0 rest, files = f0 :: rest → 0 < repeats →
      (∀ f ∈ files, f.samplerate = f0.samplerate) →
      (∀ f ∈ files, stimChannels f click = stimChannels f0 click) →
      StimulusQueue.mk_ files repeats shuffle loop click =
        .ok { repeats := repeats, shuffle := shuffle, loop := loop,
              click := click, samplerate := f0.samplerate,
              channels := stimChannels f0 click, stimuli := files }) := by
  refine ⟨?_, ?_, ?_, ?_, ?_⟩
  · intro h; subst h; rfl
  · intro hne hrep
    cases files with
    | nil => exact absurd rfl hne
    | cons f0 rest => rw [StimulusQueue.mk_, if_pos hrep]
  · intro f0 rest h hrep hmis
    subst h
    rw [StimulusQueue.mk_, if_neg (by omega : ¬ repeats ≤ 0),
        if_pos (all_decide_false _ _ hmis)]
  · intro f0 rest h hrep hsr hmis
    subst h
    rw [StimulusQueue.mk_, if_neg (by omega : ¬ repeats ≤ 0),
        if_neg (by rw [all_decide_true _ _ hsr]; decide),
        if_pos (all_decide_false _ _ hmis)]
  · intro f0 rest h hrep hsr hch
    subst h
    rw [StimulusQueue.mk_, if_neg (by omega : ¬ repeats ≤ 0),
        if_neg (by rw [all_decide_true _ _ hsr]; decide),
        if_neg (by rw [all_decide_true _ _ hch]; decide)]

/-- Witness for C9: construction rejects an empty list, a zero repeat
count, a 44100/48000 sample-rate mixture and a mono/stereo mixture, and
accepts a single valid mono file. -/
theorem c9_construction_validates_witness :
    StimulusQueue.mk_ [] 1 none false none = .error "No stimuli!" ∧
    StimulusQueue.mk_ [⟨1, 44100⟩] 0 none false none =
      .error "Number of repeats must be a positive integer" ∧
    StimulusQueue.mk_ [⟨1, 44100⟩, ⟨1, 48000⟩] 1 none false none =
      .error "sampling rate is not the same in all files" ∧
    StimulusQueue.mk_ [⟨1, 44100⟩, ⟨2, 44100⟩] 1 none false none =
      .error "channel count is not the same in all files" ∧
    StimulusQueue.mk_ [⟨1, 44100⟩] 1 none false none =
      .ok { repeats := 1, shuffle := none, loop := false, click := none,
            samplerate := 44100, channels := 1, stimuli := [⟨1, 44100⟩] } := by
  refine ⟨(c9_construction_validates [] 1 none false none).1 rfl,
          (c9_construction_validates [⟨1, 44100⟩] 0 none false none).2.1
            (by decide) (by decide),
          (c9_construction_validates [⟨1, 44100⟩, ⟨1, 48000⟩] 1 none false
            none).2.2.1 ⟨1, 44100⟩ [⟨1, 48000⟩] rfl (by decide) (by decide),
          (c9_construction_validates [⟨1, 44100⟩, ⟨2, 44100⟩] 1 none false
            none).2.2.2.1 ⟨1, 44100⟩ [⟨2, 44100⟩] rfl (by decide) (by decide)
            (by decide),
          (c9_construction_validates [⟨1, 44100⟩] 1 none false
            none).2.2.2.2 ⟨1, 44100⟩ [] rfl (by decide) (by decide)
            (by decide)⟩

/-- Invariant of the pre-fill loop: if the free space in the queue covers
the remaining iteration budget, every put_nowait succeeds and the final
queue still respects its capacity. -/
theorem prefillLoop_ok (blockSize bufferBytes : Nat) :
    ∀ (fuel : Nat) (stim : Stimulus) (q : PQueue (List (List ℚ))),
      q.items.length + fuel ≤ q.maxsize →
      ∃ r, prefillLoop blockSize bufferBytes fuel stim q = .ok r ∧
        r.1.items.length ≤ q.maxsize ∧ r.1.maxsize = q.maxsize := by
  intro fuel
  induction fuel with
  | zero =>
    intro stim q h
    exact ⟨(q, stim), rfl, by simpa using Nat.le_of_add_right_le h, rfl⟩
  | succ n ih =>
    intro stim q h
    have hfull : ¬ (0 < q.maxsize ∧ q.maxsize ≤ q.items.length) := by omega
    simp only [prefillLoop, PQueue.put_nowait, if_neg hfull]
    by_cases hshort : readBytesLen (stim.read blockSize).1 < bufferBytes
    · rw [if_pos hshort]
      refine ⟨_, rfl, ?_, rfl⟩
      simp only [List.length_append, List.length_cons, List.length_nil]
      omega
    · rw [if_neg hshort]
      obtain ⟨r, hr, hlen, hmax⟩ := ih (stim.read blockSize).2
        { maxsize := q.maxsize,
          items := q.items ++ [QItem.audio (stim.read blockSize).1] }
        (by simp only [List.length_append, List.length_cons, List.length_nil]
            omega)
      exact ⟨r, hr, by simpa using hlen, by simpa using hmax⟩

/-- C10: the pre-fill phase — one non-blocking push of the start message
followed by at most buffer_size non-blocking pushes of audio blocks into an
initially empty queue of capacity buffer_size + 1 — never hits the
queue-full error, and the queue ends within capacity. -/
theorem c10_prefill_never_full (bufferSize blockSize bufferBytes : Nat)
    (stim : Stimulus) (name : String) :
    ∃ r, prefillQueue bufferSize blockSize bufferBytes stim name = .ok r ∧
      r.1.items.length ≤ bufferSize + 1 := by
  obtain ⟨r, hr, hlen, hmax⟩ := prefillLoop_ok blockSize bufferBytes
    bufferSize stim
    { maxsize := bufferSize + 1, items := [QItem.msg ("start " ++ name)] }
    (by simp only [List.length_cons, List.length_nil]; omega)
  refine ⟨r, ?_, by simpa using hlen⟩
  have hput : PQueue.put_nowait
      ({ maxsize := bufferSize + 1, items := [] } : PQueue (List (List ℚ)))
      (QItem.msg ("start " ++ name)) =
      Except.ok { maxsize := bufferSize + 1,
                  items := [QItem.msg ("start " ++ name)] } := by
    unfold PQueue.put_nowait
    rw [if_neg (by simp)]
    rfl
  simp only [prefillQueue, hput]
  exact hr

/-- C2 evaluation at the failing input: a mono 8000 Hz stimulus with click
duration 0.1 (seconds, per the command-line help).  The first read of a
10-frame block returns two-channel frames whose sync channel is identically
zero — the code computes int(0.1 * 8000 / 1000) = 0 click frames, treating
the duration as milliseconds — whereas the claim requires
round(0.1 * 8000) = 800 leading full-scale samples. -/
theorem c2_click_frame_count_bug :
    ((clickStim.read 3).1.map fun fr => fr.getD 1 9) = [0, 0, 0] ∧
    (clickStim.read 3).1.length = 3 ∧
    clickStim.fp.pos = 0 ∧ clickStim.fp.channels = 1 ∧
    round (((1 : ℚ)/10) * (8000 : ℚ)) = 800 := by
  have hfl : pyInt ((1 : ℚ)/10 * ((8000 : Nat) : ℚ) / 1000) = 0 := by
    norm_num [pyInt]
  have hread : (clickStim.read 3).1 = [[1, 0], [1, 0], [1, 0]] := by
    simp only [Stimulus.read, clickStim]
    rw [hfl]
    rfl
  exact ⟨by rw [hread]; rfl, by rw [hread]; rfl, rfl, rfl,
         by norm_num [round_eq]⟩

/-- C3 evaluation at the failing input: the callback with a matching frame
count and an empty queue assigns the single byte of a length-one byte
string to the whole output slice; on the raw cffi output buffer this raises
a ValueError instead of writing a full block of zeros. -/
theorem c3_empty_queue_bug :
    process 2 staleBuf 2 false false none =
      .exn staleBuf "ValueError: buffer slice assignment needs matching length" ∧
    ∀ sent, process 2 staleBuf 2 false false none ≠
      .ok (List.replicate 8 0) sent := by
  have hev : process 2 staleBuf 2 false false none =
      CbResult.exn staleBuf
        "ValueError: buffer slice assignment needs matching length" := by decide
  refine ⟨hev, fun sent h => ?_⟩
  rw [hev] at h
  exact CbResult.noConfusion h

/-- C4 evaluation at the failing input: when the callback pops a control
message it forwards the text to the controller, but writes nothing to the
output buffer — the stale nonzero bytes remain instead of the claimed
all-zero block. -/
theorem c4_message_leaves_buffer_bug :
    process 2 staleBuf 2 false false (some (QItem.msg "start stim1")) =
      .ok staleBuf ["start stim1"] ∧
    staleBuf ≠ List.replicate 8 0 := by decide

end Oeaudio
